import Mathlib

/-!
Verification of the whoopsy client library (Rust) against its
natural-language specification, via a shallow embedding of the relevant
source functions in Lean 4.

Conventions of the embedding:
* HTTP status codes are `Nat` (the source matches on `status.as_u16()`).
* A response body read best-effort (`response.text().await.ok()`) is an
  `Option String`; `none` means the body could not be read.
* Network calls and JSON decoding are external effects; they enter the
  embedding as explicit function arguments (`net`, `json`), so every
  embedded operation is a pure Lean function of its inputs.
* `reqwest::StatusCode`'s `Display` rendering (code plus reason phrase, used
  only as a fallback message) is external library behaviour; it enters the
  embedding as an explicit argument `disp : Nat → String`.
-/

namespace Whoopsy

/-- Error taxonomy, from `src/error.rs` (`enum WhoopError`). The two
`#[from]` transport/serde variants carry their foreign error rendered as a
string. -/
inductive WhoopError where
  | RequestError (msg : String)
  | SerializationError (msg : String)
  | AuthenticationError (msg : String)
  | RateLimitExceeded
  | NotFound
  | BadRequest (msg : String)
  | ServerError (msg : String)
  | Unknown (msg : String)
deriving DecidableEq, Repr

/-- `WhoopError::from_status` from `src/error.rs` lines 33–43.
`disp` stands for `reqwest::StatusCode`'s `to_string()` (the fallback
message when no body is available). -/
def WhoopError.fromStatus (disp : Nat → String) (status : Nat)
    (message : Option String) : WhoopError :=
  let msg := message.getD (disp status)
  if status = 400 then .BadRequest msg
  else if status = 401 then .AuthenticationError msg
  else if status = 404 then .NotFound
  else if status = 429 then .RateLimitExceeded
  else if 500 ≤ status ∧ status ≤ 599 then .ServerError msg
  else .Unknown msg

/-- The error-mapper table as the specification states it (section 4.4),
written independently of the source for comparison: each row of the table
is one guard, `other` is the final row. -/
def errorMapperSpec (disp : Nat → String) (status : Nat)
    (message : Option String) : WhoopError :=
  let m := match message with
    | some b => b
    | none => disp status
  if status = 400 then WhoopError.BadRequest m
  else if status = 401 then WhoopError.AuthenticationError m
  else if status = 404 then WhoopError.NotFound
  else if status = 429 then WhoopError.RateLimitExceeded
  else if 500 ≤ status ∧ status ≤ 599 then WhoopError.ServerError m
  else WhoopError.Unknown m

/-- `execute_no_content` from `src/client.rs` lines 108–118: succeeds
exactly on HTTP 204, otherwise maps the status and best-effort body through
`WhoopError::from_status`. -/
def executeNoContent (disp : Nat → String) (status : Nat)
    (body : Option String) : Except WhoopError Unit :=
  if status = 204 then .ok ()
  else .error (WhoopError.fromStatus disp status body)

/-- Permission scopes, from `src/auth.rs` (`enum Scope`). -/
inductive Scope where
  | ReadRecovery
  | ReadCycles
  | ReadWorkout
  | ReadSleep
  | ReadProfile
  | ReadBodyMeasurement
deriving DecidableEq, Repr

/-- `Scope::as_str` from `src/auth.rs` lines 39–48. -/
def Scope.as_str : Scope → String
  | .ReadRecovery => "read:recovery"
  | .ReadCycles => "read:cycles"
  | .ReadWorkout => "read:workout"
  | .ReadSleep => "read:sleep"
  | .ReadProfile => "read:profile"
  | .ReadBodyMeasurement => "read:body_measurement"

/-- `Scope::from_str` from `src/auth.rs` lines 52–62. -/
def Scope.from_str (s : String) : Option Scope :=
  if s = "read:recovery" then some .ReadRecovery
  else if s = "read:cycles" then some .ReadCycles
  else if s = "read:workout" then some .ReadWorkout
  else if s = "read:sleep" then some .ReadSleep
  else if s = "read:profile" then some .ReadProfile
  else if s = "read:body_measurement" then some .ReadBodyMeasurement
  else none

/-- Token record, from `src/auth.rs` (`struct TokenResponse`). `expires_in`
is `i64` in the source; it is informational only and never arithmetically
combined, so `Int` is a faithful carrier. -/
structure TokenResponse where
  access_token : String
  token_type : String
  expires_in : Option Int
  refresh_token : Option String
  scope : Option String
deriving DecidableEq, Repr

/-- Form body of a token-endpoint POST, from `src/auth.rs`
(`struct TokenRequest`). -/
structure TokenRequest where
  grant_type : String
  code : Option String
  redirect_uri : Option String
  client_id : String
  client_secret : String
  refresh_token : Option String
deriving DecidableEq, Repr

/-- `AUTH_URL` constant from `src/auth.rs` line 5. -/
def AUTH_URL : String := "https://api.prod.whoop.com/oauth/oauth2/auth"

/-- OAuth credentials and requested scopes, from `src/auth.rs`
(`struct OAuthConfig`). The source stores scopes in a `HashSet`; iteration
order over a `HashSet` is unspecified, so the embedding carries the scopes
as a list in an arbitrary order. -/
structure OAuthConfig where
  client_id : String
  client_secret : String
  redirect_uri : String
  scopes : List Scope

/-- Uppercase hex digit for `n < 16`. -/
def hexDigit (n : Nat) : Char :=
  if n < 10 then Char.ofNat (48 + n) else Char.ofNat (55 + n)

/-- `%XX` escape of one byte value (`b < 256`). -/
def percentByte (b : Nat) : String :=
  ⟨['%', hexDigit (b / 16), hexDigit (b % 16)]⟩

/-- UTF-8 byte values of one character (standard encoding, as Rust's
`str` bytes). -/
def utf8Bytes (c : Char) : List Nat :=
  let n := c.toNat
  if n < 0x80 then [n]
  else if n < 0x800 then [0xC0 + n / 64, 0x80 + n % 64]
  else if n < 0x10000 then
    [0xE0 + n / 4096, 0x80 + (n / 64) % 64, 0x80 + n % 64]
  else
    [0xF0 + n / 262144, 0x80 + (n / 4096) % 64, 0x80 + (n / 64) % 64,
     0x80 + n % 64]

/-- `urlencoding::encode` (external crate used at `src/auth.rs` lines
116–118): every byte is percent-escaped except ASCII alphanumerics and
`-`, `_`, `.`, `~`. The unreserved bytes are all ASCII, so the check can be
made per character. -/
def urlencode (s : String) : String :=
  s.data.foldr
    (fun c acc =>
      (if c.isAlphanum || c = '-' || c = '_' || c = '.' || c = '~' then
        String.singleton c
      else
        String.join ((utf8Bytes c).map percentByte)) ++ acc)
    ""

/-- `OAuthConfig::get_authorization_url` from `src/auth.rs` lines 105–120:
space-join the scope strings, then format the query onto `AUTH_URL` with
`client_id`, `redirect_uri` and the joined scopes percent-encoded. -/
def OAuthConfig.getAuthorizationUrl (cfg : OAuthConfig) : String :=
  let scopesStr := String.intercalate " " (cfg.scopes.map Scope.as_str)
  AUTH_URL ++ "?response_type=code&client_id=" ++ urlencode cfg.client_id
    ++ "&redirect_uri=" ++ urlencode cfg.redirect_uri
    ++ "&scope=" ++ urlencode scopesStr

/-- Request built by `OAuthConfig::exchange_code` (`src/auth.rs` lines
127–134). -/
def OAuthConfig.exchangeRequest (cfg : OAuthConfig) (code : String) :
    TokenRequest :=
  { grant_type := "authorization_code"
    code := some code
    redirect_uri := some cfg.redirect_uri
    client_id := cfg.client_id
    client_secret := cfg.client_secret
    refresh_token := none }

/-- Request built by `OAuthConfig::refresh_token` (`src/auth.rs` lines
154–161). -/
def OAuthConfig.refreshRequest (cfg : OAuthConfig) (rt : String) :
    TokenRequest :=
  { grant_type := "refresh_token"
    code := none
    redirect_uri := none
    client_id := cfg.client_id
    client_secret := cfg.client_secret
    refresh_token := some rt }

/-- `reqwest::StatusCode::is_success`: status in `200..=299`. -/
def isSuccessStatus (status : Nat) : Bool :=
  200 ≤ status && status ≤ 299

/-- Response handling shared by `OAuthConfig::exchange_code`
(`src/auth.rs` lines 136–146) and `OAuthConfig::refresh_token`
(lines 163–173): on a success status decode the body as `TokenResponse`
JSON (`json` embeds `response.json().await`, whose failures surface
through `?`); otherwise read the body as text, falling back to
`"Unknown error"`, and fail with `AuthenticationError`. -/
def tokenEndpointResponse (json : Option String → Except WhoopError TokenResponse)
    (status : Nat) (body : Option String) : Except WhoopError TokenResponse :=
  if isSuccessStatus status then json body
  else .error (WhoopError.AuthenticationError (body.getD "Unknown error"))

/-- `OAuthConfig::exchange_code`, `src/auth.rs` lines 124–147, as a function
of the token endpoint's response. -/
def OAuthConfig.exchangeCode (_cfg : OAuthConfig)
    (json : Option String → Except WhoopError TokenResponse)
    (status : Nat) (body : Option String) : Except WhoopError TokenResponse :=
  tokenEndpointResponse json status body

/-- `OAuthConfig::refresh_token`, `src/auth.rs` lines 151–174, as a function
of the token endpoint's response. -/
def OAuthConfig.refreshTokenCall (_cfg : OAuthConfig)
    (json : Option String → Except WhoopError TokenResponse)
    (status : Nat) (body : Option String) : Except WhoopError TokenResponse :=
  tokenEndpointResponse json status body

/-- Authentication mode of the client, from `src/client.rs` (`enum Auth`):
a fixed bearer token, or an OAuth config plus the shared
`Arc<Mutex<TokenResponse>>` cell. The embedding carries the cell's current
contents directly; mutation appears as the returned new contents. -/
inductive Auth where
  | accessToken (tok : String)
  | oauth (config : OAuthConfig) (token : TokenResponse)

/-- Observable events of a client operation, for the lock-discipline
invariant: acquiring/releasing the token mutex, reading or writing the
guarded record while holding it, and issuing a network call. -/
inductive Event where
  | lockAcquire
  | lockRelease
  | memRead
  | memWrite
  | netCall
deriving DecidableEq, Repr

namespace WhoopClient

/-- `WhoopClient::get_access_token`, `src/client.rs` lines 56–64, with its
event trace: the static arm touches nothing shared; the OAuth arm locks,
copies the access-token field, and the guard drops before returning. -/
def getAccessTokenTr : Auth → String × List Event
  | .accessToken tok => (tok, [])
  | .oauth _ token =>
      (token.access_token, [.lockAcquire, .memRead, .lockRelease])

/-- `WhoopClient::get_access_token`, value only. -/
def getAccessToken (a : Auth) : String := (getAccessTokenTr a).1

/-- `WhoopClient::refresh_token`, `src/client.rs` lines 68–86, with its
event trace. `net rt` embeds `config.refresh_token(rt).await`
(the token-endpoint call). Following the source block structure:
* static arm (line 70): `Ok(())`, nothing shared touched;
* OAuth arm: the inner block (lines 72–77) locks, clones the stored
  refresh token and drops the guard — also on the early
  `AuthenticationError("No refresh token available")` return;
* the network call (line 79) runs with no lock held; its error propagates
  through `?` leaving the record untouched;
* on success (lines 81–82) the lock is re-acquired and the whole record is
  replaced. -/
def refreshTokenTr (net : String → Except WhoopError TokenResponse) :
    Auth → (Except WhoopError Unit × Auth) × List Event
  | .accessToken tok => ((.ok (), .accessToken tok), [])
  | .oauth config token =>
      let readTr : List Event := [.lockAcquire, .memRead, .lockRelease]
      match token.refresh_token with
      | none =>
          ((.error (WhoopError.AuthenticationError "No refresh token available"),
            .oauth config token), readTr)
      | some rt =>
          match net rt with
          | .error e => ((.error e, .oauth config token), readTr ++ [.netCall])
          | .ok newToken =>
              ((.ok (), .oauth config newToken),
               readTr ++ [.netCall, .lockAcquire, .memWrite, .lockRelease])

/-- `WhoopClient::refresh_token`, result and new state only. -/
def refreshToken (net : String → Except WhoopError TokenResponse)
    (a : Auth) : Except WhoopError Unit × Auth :=
  (refreshTokenTr net a).1

/-- `WhoopClient::execute_no_content` is `executeNoContent` above; its
request trace issues the send with no lock held (the bearer token was read
and the guard dropped inside `get_access_token` at build time). -/
def executeNoContentTr (a : Auth) : List Event :=
  (getAccessTokenTr a).2 ++ [.netCall]

end WhoopClient

/-- Lock discipline checker over an event trace, starting from lock depth
`d`: a network call is legal only at depth 0, the mutex is non-reentrant,
a release needs the lock held, shared memory is touched only under the
lock, and the trace ends with the lock free. -/
def lockDisciplineFrom : Nat → List Event → Bool
  | d, [] => d = 0
  | d, .lockAcquire :: es => d = 0 && lockDisciplineFrom (d + 1) es
  | d, .lockRelease :: es => d = 1 && lockDisciplineFrom (d - 1) es
  | d, .memRead :: es => d = 1 && lockDisciplineFrom d es
  | d, .memWrite :: es => d = 1 && lockDisciplineFrom d es
  | d, .netCall :: es => d = 0 && lockDisciplineFrom d es

/-- Lock discipline of a whole trace: starts and ends unlocked, network
calls only while unlocked, memory access only while locked. -/
def lockDisciplineOk (es : List Event) : Bool :=
  lockDisciplineFrom 0 es

/-- Query parameters of the cycle-collection endpoint, from
`src/models.rs` lines 204–215 (`struct CycleQueryParams`). Every field is
optional and `#[serde(skip_serializing_if = "Option::is_none")]`; the
`next_token` field is renamed to `nextToken`. The two `chrono`
timestamps serialize as RFC3339 strings; the embedding carries that
serialized form as an opaque `String`. -/
structure CycleQueryParams where
  limit : Option Int
  start : Option String
  «end» : Option String
  next_token : Option String
deriving DecidableEq, Repr

/-- Key–value pairs emitted when `reqwest`'s `.query(&p)` serializes a
`CycleQueryParams` (`src/client.rs` line 135): fields in declaration
order, each present field contributing its (possibly renamed) key, each
absent field skipped entirely. -/
def CycleQueryParams.toQueryPairs (p : CycleQueryParams) :
    List (String × String) :=
  (match p.limit with | some v => [("limit", toString v)] | none => [])
    ++ (match p.start with | some v => [("start", v)] | none => [])
    ++ (match p.«end» with | some v => [("end", v)] | none => [])
    ++ (match p.next_token with
        | some v => [("nextToken", v)] | none => [])

/-- The serialized query string: `k=v` pairs joined by `&` (percent-encoding
of keys and values is the identity on every character they can contain
here). -/
def CycleQueryParams.toQueryString (p : CycleQueryParams) : String :=
  String.intercalate "&" (p.toQueryPairs.map fun kv => kv.1 ++ "=" ++ kv.2)

/-! ## Theorems -/

/-- C1: for every HTTP status and optional body, `WhoopError::from_status`
is a pure function agreeing with the spec's error-mapper table:
400 → BadRequest(body or reason phrase), 401 → AuthenticationError(body or
reason phrase), 404 → NotFound (body discarded), 429 → RateLimitExceeded
(body discarded), 500..=599 → ServerError(body or reason phrase), every
other status → Unknown(body or reason phrase). -/
theorem from_status_matches_spec_table (disp : Nat → String) (status : Nat)
    (body : Option String) :
    WhoopError.fromStatus disp status body = errorMapperSpec disp status body := by
  unfold WhoopError.fromStatus errorMapperSpec
  cases body <;> rfl

/-- C3: `execute_no_content` succeeds exactly when the status is 204; every
other status (including 200) yields the error-mapper's error for that
status and best-effort body. -/
theorem execute_no_content_only_204 (disp : Nat → String) (status : Nat)
    (body : Option String) :
    (executeNoContent disp status body = .ok () ↔ status = 204) ∧
    (status ≠ 204 →
      executeNoContent disp status body =
        .error (WhoopError.fromStatus disp status body)) := by
  unfold executeNoContent
  constructor
  · constructor
    · intro h
      by_contra hne
      simp [hne] at h
    · intro h; simp [h]
  · intro h; simp [h]

/-- Witness for C3 at the spec's own test statuses: 200 fails with the
mapped error even though it is a success code, and 204 succeeds. -/
theorem execute_no_content_only_204_witness :
    executeNoContent (fun _ => "") 200 (some "x") =
      .error (WhoopError.fromStatus (fun _ => "") 200 (some "x")) ∧
    executeNoContent (fun _ => "") 204 none = .ok () :=
  ⟨(execute_no_content_only_204 (fun _ => "") 200 (some "x")).2 (by decide),
   (execute_no_content_only_204 (fun _ => "") 204 none).1.mpr rfl⟩

/-- C4: decoding after encoding returns the original scope, and decoding a
string that is not the encoding of any scope returns `none`. -/
theorem scope_encode_decode (s : Scope) (str : String)
    (h : ∀ sc : Scope, sc.as_str ≠ str) :
    Scope.from_str s.as_str = some s ∧ Scope.from_str str = none := by
  constructor
  · cases s <;> rfl
  · unfold Scope.from_str
    split_ifs with h1 h2 h3 h4 h5 h6
    · exact absurd h1.symm (h .ReadRecovery)
    · exact absurd h2.symm (h .ReadCycles)
    · exact absurd h3.symm (h .ReadWorkout)
    · exact absurd h4.symm (h .ReadSleep)
    · exact absurd h5.symm (h .ReadProfile)
    · exact absurd h6.symm (h .ReadBodyMeasurement)
    · rfl

/-- Witness for C4: round trip at `ReadCycles`, and the unrecognized string
`"read:everything"` decodes to `none`. -/
theorem scope_encode_decode_witness :
    Scope.from_str (Scope.as_str .ReadCycles) = some .ReadCycles ∧
    Scope.from_str "read:everything" = none :=
  scope_encode_decode .ReadCycles "read:everything"
    (by intro sc; cases sc <;> decide)

/-- C10: decoding is a right inverse of encoding — whenever a string
decodes to a scope, encoding that scope gives back exactly that string, so
each scope's string form is unique. -/
theorem scope_decode_right_inverse (str : String) (sc : Scope)
    (h : Scope.from_str str = some sc) : sc.as_str = str := by
  unfold Scope.from_str at h
  split_ifs at h with h1 h2 h3 h4 h5 h6 <;>
    injection h with h0 <;> subst h0 <;> simp [Scope.as_str, *]

/-- Witness for C10 at the concrete string `"read:sleep"`. -/
theorem scope_decode_right_inverse_witness :
    Scope.as_str .ReadSleep = "read:sleep" :=
  scope_decode_right_inverse "read:sleep" .ReadSleep rfl

/-- C7: a static-token client always hands back the fixed string it was
constructed with, and `refresh_token` on it is a no-op success leaving the
state unchanged. -/
theorem static_token_client (tok : String)
    (net : String → Except WhoopError TokenResponse) :
    WhoopClient.getAccessToken (.accessToken tok) = tok ∧
    WhoopClient.refreshToken net (.accessToken tok) =
      (.ok (), .accessToken tok) :=
  ⟨rfl, rfl⟩

/-- Counterexample to C2 as stated: with no stored refresh token the code
fails with message `"No refresh token available"` (capital `N`, from
`src/client.rs` line 75), not the claimed `"no refresh token available"`. -/
theorem refresh_no_token_message_counterexample :
    (WhoopClient.refreshToken (fun _ => .error (.RequestError "unreachable"))
        (.oauth ⟨"id", "secret", "uri", []⟩
          ⟨"tok", "bearer", none, none, none⟩)).1 =
      .error (.AuthenticationError "No refresh token available") ∧
    "No refresh token available" ≠ "no refresh token available" :=
  ⟨rfl, by decide⟩

/-- C2 (amended): for an OAuth-mode client, `refresh_token` fails with
`AuthenticationError("No refresh token available")` when no refresh token
is stored; every failing call (missing refresh token, or failed network
refresh) leaves the stored record exactly as it was; a successful call
replaces the entire stored record with the newly obtained one. -/
theorem oauth_refresh_state (net : String → Except WhoopError TokenResponse)
    (cfg : OAuthConfig) (rec : TokenResponse) :
    (rec.refresh_token = none →
      WhoopClient.refreshToken net (.oauth cfg rec) =
        (.error (.AuthenticationError "No refresh token available"),
         .oauth cfg rec)) ∧
    (∀ rt e, rec.refresh_token = some rt → net rt = .error e →
      WhoopClient.refreshToken net (.oauth cfg rec) =
        (.error e, .oauth cfg rec)) ∧
    (∀ rt t, rec.refresh_token = some rt → net rt = .ok t →
      WhoopClient.refreshToken net (.oauth cfg rec) =
        (.ok (), .oauth cfg t)) := by
  refine ⟨?_, ?_, ?_⟩
  · intro h
    simp [WhoopClient.refreshToken, WhoopClient.refreshTokenTr, h]
  · intro rt e h1 h2
    simp [WhoopClient.refreshToken, WhoopClient.refreshTokenTr, h1, h2]
  · intro rt t h1 h2
    simp [WhoopClient.refreshToken, WhoopClient.refreshTokenTr, h1, h2]

/-- Witness for C2 (amended), covering the no-stored-refresh-token case and
the successful-replacement case at concrete records. -/
theorem oauth_refresh_state_witness :
    WhoopClient.refreshToken (fun _ => .error (.RequestError "unreachable"))
      (.oauth ⟨"i", "s", "u", []⟩ ⟨"old", "bearer", none, none, none⟩) =
      (.error (.AuthenticationError "No refresh token available"),
       .oauth ⟨"i", "s", "u", []⟩ ⟨"old", "bearer", none, none, none⟩) ∧
    WhoopClient.refreshToken
      (fun _ => .ok ⟨"new", "bearer", some 3600, some "rt2", none⟩)
      (.oauth ⟨"i", "s", "u", []⟩ ⟨"old", "bearer", none, some "rt", none⟩) =
      (.ok (), .oauth ⟨"i", "s", "u", []⟩
        ⟨"new", "bearer", some 3600, some "rt2", none⟩) :=
  ⟨(oauth_refresh_state _ _ _).1 rfl,
   (oauth_refresh_state _ _ _).2.2 "rt"
     ⟨"new", "bearer", some 3600, some "rt2", none⟩ rfl rfl⟩

/-- C6: for both the code-exchange call and the refresh-token call against
the token endpoint, a 2xx response is decoded as the token-record JSON
shape, and every non-2xx response yields `AuthenticationError` carrying
the response body text, or the placeholder `"Unknown error"` when the body
cannot be read. -/
theorem token_endpoint_contract (cfg : OAuthConfig)
    (json : Option String → Except WhoopError TokenResponse)
    (status : Nat) (body : Option String) :
    (isSuccessStatus status = true →
      cfg.exchangeCode json status body = json body ∧
      cfg.refreshTokenCall json status body = json body) ∧
    (isSuccessStatus status = false →
      cfg.exchangeCode json status body =
        .error (.AuthenticationError (body.getD "Unknown error")) ∧
      cfg.refreshTokenCall json status body =
        .error (.AuthenticationError (body.getD "Unknown error"))) := by
  unfold OAuthConfig.exchangeCode OAuthConfig.refreshTokenCall
    tokenEndpointResponse
  constructor <;> intro h <;> simp [h]

/-- Witness for C6 at status 401 with a readable body, status 500 with an
unreadable body, and status 200. -/
theorem token_endpoint_contract_witness :
    OAuthConfig.exchangeCode ⟨"i", "s", "u", []⟩
        (fun _ => .error (.SerializationError "bad json")) 401 (some "denied") =
      .error (.AuthenticationError "denied") ∧
    OAuthConfig.refreshTokenCall ⟨"i", "s", "u", []⟩
        (fun _ => .error (.SerializationError "bad json")) 500 none =
      .error (.AuthenticationError "Unknown error") ∧
    OAuthConfig.exchangeCode ⟨"i", "s", "u", []⟩
        (fun _ => .error (.SerializationError "bad json")) 200 (some "{}") =
      .error (.SerializationError "bad json") :=
  ⟨((token_endpoint_contract ⟨"i", "s", "u", []⟩ _ 401 (some "denied")).2
      (by decide)).1,
   ((token_endpoint_contract ⟨"i", "s", "u", []⟩ _ 500 none).2 (by decide)).2,
   ((token_endpoint_contract ⟨"i", "s", "u", []⟩ _ 200 (some "{}")).1
      (by decide)).1⟩

/-- C9: in every trace of the OAuth refresh path, of `get_access_token`,
and of a request send, the token lock is held only for in-memory reads and
the in-memory whole-record replacement: every network call happens at lock
depth zero, shared memory is touched only under the lock, and the lock is
free again at the end of the operation — so a slow refresh never holds the
lock while its network call is outstanding. -/
theorem lock_never_held_across_network
    (net : String → Except WhoopError TokenResponse)
    (cfg : OAuthConfig) (rec : TokenResponse) (a : Auth) :
    lockDisciplineOk (WhoopClient.refreshTokenTr net (.oauth cfg rec)).2 = true ∧
    lockDisciplineOk (WhoopClient.getAccessTokenTr a).2 = true ∧
    lockDisciplineOk (WhoopClient.executeNoContentTr a) = true := by
  refine ⟨?_, ?_, ?_⟩
  · rcases hrt : rec.refresh_token with _ | rt
    · simp [WhoopClient.refreshTokenTr, hrt, lockDisciplineOk,
        lockDisciplineFrom]
    · rcases hnet : net rt with e | t <;>
        simp [WhoopClient.refreshTokenTr, hrt, hnet, lockDisciplineOk,
          lockDisciplineFrom]
  · cases a <;> rfl
  · cases a <;> rfl

/-- C8: a `CycleQueryParams` with only `limit = 5` set serializes to
exactly `limit=5`; in general every emitted key belongs to a present
field, so absent optional fields are omitted entirely from the serialized
query. -/
theorem query_filter_serialization (p : CycleQueryParams) (k v : String) :
    (CycleQueryParams.toQueryPairs ⟨some 5, none, none, none⟩ =
       [("limit", "5")] ∧
     CycleQueryParams.toQueryString ⟨some 5, none, none, none⟩ = "limit=5") ∧
    ((k, v) ∈ p.toQueryPairs →
      (k = "limit" ∧ p.limit.isSome) ∨
      (k = "start" ∧ p.start.isSome) ∨
      (k = "end" ∧ p.«end».isSome) ∨
      (k = "nextToken" ∧ p.next_token.isSome)) := by
  refine ⟨⟨by decide, by decide⟩, ?_⟩
  intro h
  rcases p with ⟨l, s, e, n⟩
  cases l <;> cases s <;> cases e <;> cases n <;>
    simp_all [CycleQueryParams.toQueryPairs] <;> tauto

/-- Witness for C8 at the filter with only `limit = 5`: the one emitted
pair is `("limit", "5")`, and the key soundness applies to it. -/
theorem query_filter_serialization_witness :
    (CycleQueryParams.toQueryPairs ⟨some 5, none, none, none⟩ =
       [("limit", "5")] ∧
     CycleQueryParams.toQueryString ⟨some 5, none, none, none⟩ = "limit=5") ∧
    (("limit" = "limit" ∧ (some (5 : Int)).isSome) ∨
     ("limit" = "start" ∧ (none : Option String).isSome) ∨
     ("limit" = "end" ∧ (none : Option String).isSome) ∨
     ("limit" = "nextToken" ∧ (none : Option String).isSome)) :=
  ⟨(query_filter_serialization ⟨some 5, none, none, none⟩ "limit" "5").1,
   (query_filter_serialization ⟨some 5, none, none, none⟩ "limit" "5").2
     (by decide)⟩

/-- C5: the built authorization URL is a pure function of the credentials
and the scope order (in particular independent of the client secret), and
contains the literal `response_type=code`, the percent-encoded client id,
the percent-encoded redirect URI, and the percent-encoding of the
space-joined scope strings; for the scope set {ReadProfile, ReadCycles},
in either iteration order, it contains the two scope tokens space-joined
in that order. -/
theorem authorization_url_components (cfg : OAuthConfig) :
    "response_type=code".data <:+: cfg.getAuthorizationUrl.data ∧
    (urlencode cfg.client_id).data <:+: cfg.getAuthorizationUrl.data ∧
    (urlencode cfg.redirect_uri).data <:+: cfg.getAuthorizationUrl.data ∧
    (urlencode (String.intercalate " " (cfg.scopes.map Scope.as_str))).data
      <:+: cfg.getAuthorizationUrl.data ∧
    (∀ cfg2 : OAuthConfig, cfg.client_id = cfg2.client_id →
      cfg.redirect_uri = cfg2.redirect_uri → cfg.scopes = cfg2.scopes →
      cfg.getAuthorizationUrl = cfg2.getAuthorizationUrl) ∧
    ((cfg.scopes = [.ReadProfile, .ReadCycles] ∨
        cfg.scopes = [.ReadCycles, .ReadProfile]) →
      (urlencode "read:profile read:cycles").data <:+:
          cfg.getAuthorizationUrl.data ∨
      (urlencode "read:cycles read:profile").data <:+:
          cfg.getAuthorizationUrl.data) := by
  have hurl : cfg.getAuthorizationUrl =
      AUTH_URL ++ "?" ++ "response_type=code" ++ "&client_id="
        ++ urlencode cfg.client_id ++ "&redirect_uri="
        ++ urlencode cfg.redirect_uri ++ "&scope="
        ++ urlencode (String.intercalate " "
            (cfg.scopes.map Scope.as_str)) := rfl
  have hscope : (urlencode (String.intercalate " "
      (cfg.scopes.map Scope.as_str))).data <:+:
      cfg.getAuthorizationUrl.data := by
    refine ⟨(AUTH_URL ++ "?" ++ "response_type=code" ++ "&client_id="
      ++ urlencode cfg.client_id ++ "&redirect_uri="
      ++ urlencode cfg.redirect_uri ++ "&scope=").data, [], ?_⟩
    simp [hurl, String.data_append]
  refine ⟨?_, ?_, ?_, hscope, ?_, ?_⟩
  · refine ⟨(AUTH_URL ++ "?").data,
      ("&client_id=" ++ urlencode cfg.client_id ++ "&redirect_uri="
        ++ urlencode cfg.redirect_uri ++ "&scope="
        ++ urlencode (String.intercalate " "
            (cfg.scopes.map Scope.as_str))).data, ?_⟩
    simp [hurl, String.data_append]
  · refine ⟨(AUTH_URL ++ "?" ++ "response_type=code" ++ "&client_id=").data,
      ("&redirect_uri=" ++ urlencode cfg.redirect_uri ++ "&scope="
        ++ urlencode (String.intercalate " "
            (cfg.scopes.map Scope.as_str))).data, ?_⟩
    simp [hurl, String.data_append]
  · refine ⟨(AUTH_URL ++ "?" ++ "response_type=code" ++ "&client_id="
      ++ urlencode cfg.client_id ++ "&redirect_uri=").data,
      ("&scope=" ++ urlencode (String.intercalate " "
          (cfg.scopes.map Scope.as_str))).data, ?_⟩
    simp [hurl, String.data_append]
  · intro cfg2 h1 h2 h3
    unfold OAuthConfig.getAuthorizationUrl
    rw [h1, h2, h3]
  · intro hsc
    cases hsc with
    | inl h => exact Or.inl (by rw [h] at hscope; exact hscope)
    | inr h => exact Or.inr (by rw [h] at hscope; exact hscope)

/-- Witness for C5: the URL built for credentials `("my id", "secret",
"https://cb/x")` with scopes `[ReadProfile, ReadCycles]` contains the
space-joined scope tokens in one of the two orders. -/
theorem authorization_url_components_witness :
    (urlencode "read:profile read:cycles").data <:+:
      (OAuthConfig.getAuthorizationUrl
        ⟨"my id", "secret", "https://cb/x",
         [.ReadProfile, .ReadCycles]⟩).data ∨
    (urlencode "read:cycles read:profile").data <:+:
      (OAuthConfig.getAuthorizationUrl
        ⟨"my id", "secret", "https://cb/x",
         [.ReadProfile, .ReadCycles]⟩).data :=
  (authorization_url_components _).2.2.2.2.2 (Or.inl rfl)

end Whoopsy
